import Mathlib

/-!
Shallow embedding of the order-admin HTTP handlers (Next.js route handlers
over a Supabase store).  The store itself is an external collaborator; it is
modelled as a plain list of order rows plus explicit read/insert outcomes.
Each handler below is translated from the corresponding route file:

* `POSTcreate`   — POST /api/orders      (src/app/api/orders/route.ts, the
                   revision with `isStopped` and the 50-attempt generator)
* `listOrders`   — GET /api/orders       (src/app/api/orders/route.ts GET)
* `patchStatus`  — PATCH /api/orders/[id] (src/app/api/orders/[id]/route.ts)
* `getOne`       — GET /api/orders/[order_no] (src/app/api/orders/[order_no]/route.ts)
* `resetOrders`  — POST /api/orders/reset (src/app/api/orders/reset/route.ts)
* `loginPOST`    — POST /api/admin/login  (app/api/admin/login/route.ts)
-/

namespace OrderAdmin

/-- Order status enum: column `status` of the `orders` table. -/
inductive Status where
  | pending
  | completed
  | cancelled
deriving DecidableEq, Repr

/-- `status` rendered the way it is stored and compared in query strings. -/
def statusToString : Status → String
  | .pending => "pending"
  | .completed => "completed"
  | .cancelled => "cancelled"

/-- One line item of an order, as accepted by `ItemSchema`
(zod: id nonempty, name nonempty, qty positive int, price nonnegative optional). -/
structure Item where
  id : String
  name : String
  qty : Int
  price : Option Int
deriving DecidableEq, Repr

/-- A row of the `orders` table. -/
structure Order where
  id : String
  order_no : String
  items : List Item
  note : String
  status : Status
  source : String
  idempotency_key : Option String
  created_at : Nat
deriving DecidableEq, Repr

/-- The `orders` table. -/
structure DB where
  orders : List Order
deriving DecidableEq, Repr

/-- Raw JSON body of a create request, before zod validation. -/
structure RawBody where
  items : List Item
  note : Option String
deriving DecidableEq, Repr

/-- `ItemSchema.safeParse` on one item: id min 1, name min 1,
qty positive integer, price nonnegative when present. -/
def validItem (it : Item) : Bool :=
  1 ≤ it.id.length && 1 ≤ it.name.length && 0 < it.qty &&
    (match it.price with
     | some p => 0 ≤ p
     | none => true)

/-- `CreateSchema.safeParse`: items nonempty and all valid, note at most
500 characters.  A request whose JSON failed to parse becomes `{}` in the
handler and fails the `items` requirement, hence `none` here. -/
def parseBody : Option RawBody → Option RawBody
  | none => none
  | some b =>
      if b.items ≠ [] && b.items.all validItem &&
          (match b.note with
           | some s => s.length ≤ 500
           | none => true) then
        some b
      else none

/-- Result of the `app_settings` read for key "order_stop" performed by
`isStopped`: `dat` is `value.stopped` of the returned row when one came
back, `error` the store error, if any (the handler destructures only
`data`, so `error` is carried but unread). -/
structure SettingsRead where
  dat : Option Bool
  error : Option String
deriving DecidableEq, Repr

/-- `isStopped`: `return !!data?.value?.stopped` — false when no row came
back, the `error` field is never consulted. -/
def isStopped (r : SettingsRead) : Bool :=
  match r.dat with
  | some b => b
  | none => false

/-- HTTP response of the single-order endpoints (create, patch, get one,
reset): status code, `ok` flag, the order in the body when present, and the
surfaced error message, if any. -/
structure Resp where
  status : Nat
  ok : Bool
  order : Option Order
  error : Option String
deriving DecidableEq, Repr

/-- `rand4` renders a number below 10000 as a zero-padded 4-digit string:
`String(Math.floor(Math.random() * 10000)).padStart(4, "0")`. -/
def rand4 (n : Nat) : String :=
  let s := toString (n % 10000)
  String.mk (List.replicate (4 - s.length) '0') ++ s

/-- One candidate order number: `${prefix}-${rand4()}`. -/
def candidateNo (pre : String) (n : Nat) : String :=
  pre ++ "-" ++ rand4 n

/-- Does an order with this `order_no` already exist?  This is the
`select("id").eq("order_no", order_no).limit(1)` collision probe. -/
def orderNoTaken (db : DB) (no : String) : Bool :=
  db.orders.any (fun o => o.order_no == no)

/-- The `for (let i = 0; i < 50; i++)` retry loop of `generateOrderNo`:
`fuel` is the number of attempts left, `i` the index of the next draw from
the random stream `rnd`.  Each collision regenerates the suffix (consumes
the next draw); exhausting the fuel is the thrown
"failed to generate unique order_no" error, modelled as `none`. -/
def genLoop (db : DB) (pre : String) (rnd : Nat → Nat) : Nat → Nat → Option String
  | 0, _ => none
  | fuel + 1, i =>
      let cand := candidateNo pre (rnd i)
      if orderNoTaken db cand then genLoop db pre rnd fuel (i + 1)
      else some cand

/-- `generateOrderNo`: up to 50 attempts at `${datePrefix()}-${rand4()}`. -/
def generateOrderNo (db : DB) (pre : String) (rnd : Nat → Nat) : Option String :=
  genLoop db pre rnd 50 0

/-- First order carrying this idempotency key:
`select(...).eq("idempotency_key", idem).single()`. -/
def findByIdem (db : DB) (k : String) : Option Order :=
  db.orders.find? (fun o => o.idempotency_key == some k)

/-- Environment a create request runs in: the settings-read outcome, the
date prefix, the random-suffix stream, and the store-assigned id and
timestamp of a row inserted by this request. -/
structure CreateEnv where
  settings : SettingsRead
  pre : String
  rnd : Nat → Nat
  newId : String
  createdAt : Nat

/-- A create request: the `Idempotency-Key` header (absent or empty header
is `null` in the handler, hence `none`) and the JSON body. -/
structure CreateReq where
  idem : Option String
  body : Option RawBody

/-- POST /api/orders.  Order of checks follows the handler: stop flag
(403), idempotency replay (200 with the existing order, before any
validation), zod validation (400), order-number generation (the throw is
caught and surfaced as 500), then the insert of a pending row. -/
def POSTcreate (db : DB) (env : CreateEnv) (req : CreateReq) : DB × Resp :=
  if isStopped env.settings then
    (db, { status := 403, ok := false, order := none, error := some "ORDER_STOPPED" })
  else
    let fresh : DB × Resp :=
      match parseBody req.body with
      | none => (db, { status := 400, ok := false, order := none, error := some "Invalid payload" })
      | some input =>
          match generateOrderNo db env.pre env.rnd with
          | none =>
              (db, { status := 500, ok := false, order := none,
                     error := some "failed to generate unique order_no" })
          | some no =>
              let o : Order :=
                { id := env.newId, order_no := no, items := input.items,
                  note := input.note.getD "", status := .pending, source := "web",
                  idempotency_key := req.idem, created_at := env.createdAt }
              (⟨db.orders ++ [o]⟩,
               { status := 200, ok := true, order := some o, error := none })
    match req.idem with
    | some k =>
        match findByIdem db k with
        | some existed =>
            (db, { status := 200, ok := true, order := some existed, error := none })
        | none => fresh
    | none => fresh

end OrderAdmin

namespace OrderAdmin

/-- C1 concrete witness data: a nonempty valid request body. -/
def itemW : Item := { id := "1", name := "Coffee", qty := 2, price := some 300 }

/-- C1 concrete witness data: one existing pending order. -/
def orderW : Order :=
  { id := "row-1", order_no := "20250101-0001", items := [itemW], note := "",
    status := .pending, source := "web", idempotency_key := some "tok-1",
    created_at := 10 }

/-- Witness database holding `orderW`. -/
def dbW : DB := ⟨[orderW]⟩

/-- Witness environment with the stop flag set. -/
def envStopW : CreateEnv :=
  { settings := { dat := some true, error := none }, pre := "20250102",
    rnd := fun _ => 7, newId := "row-2", createdAt := 20 }

/-- Witness create request. -/
def reqW : CreateReq := { idem := none, body := some { items := [itemW], note := none } }

/-- Is the status one of the two removed by the bulk reset
(`.in("status", ["completed", "cancelled"])`)? -/
def statusResettable (s : Status) : Bool :=
  s == .completed || s == .cancelled

/-- POST /api/orders/reset: requires the `admin_auth` cookie to hold
exactly "1" (`if (auth !== "1") return 401`), then deletes every order
whose status is completed or cancelled. -/
def resetOrders (db : DB) (cookie : Option String) : DB × Resp :=
  if cookie ≠ some "1" then
    (db, { status := 401, ok := false, order := none, error := some "Unauthorized" })
  else
    (⟨db.orders.filter (fun o => !statusResettable o.status)⟩,
     { status := 200, ok := true, order := none, error := none })

/-- `PatchSchema.safeParse` on the body's `status` field:
`z.enum(["completed", "cancelled", "pending"])`. -/
def parseStatusField : Option String → Option Status
  | some "completed" => some .completed
  | some "cancelled" => some .cancelled
  | some "pending" => some .pending
  | _ => none

/-- The store call `update({ status }).eq("id", id).select().single()`:
overwrite the status of every row with this store id; `.single()` demands
exactly one returned row, so when the update matched no row it reports the
PGRST116 no-rows error with null data (the behaviour this repository's own
`app_settings` handlers special-case), and when one row matched it returns
that updated row with no error. -/
def updateWhereId (db : DB) (id : String) (st : Status) :
    DB × Option Order × Option String :=
  match db.orders.find? (fun o => o.id == id) with
  | none => (db, none, some "PGRST116")
  | some o =>
      (⟨db.orders.map (fun x => if x.id == id then { x with status := st } else x)⟩,
       some { o with status := st }, none)

/-- PATCH /api/orders/[id]: validate the body (400), run `updateWhereId`,
then — in the handler's order — `if (error)` answer 500 with the store
error message, `if (!data)` answer 404, else 200 with the updated row.
Under the store's `.single()` semantics the no-data branch cannot be
reached: a missing row surfaces as an error first. -/
def patchStatus (db : DB) (id : String) (body : Option String) : DB × Resp :=
  match parseStatusField body with
  | none => (db, { status := 400, ok := false, order := none, error := some "Invalid payload" })
  | some st =>
      let r := updateWhereId db id st
      match r.2.2 with
      | some m => (r.1, { status := 500, ok := false, order := none, error := some m })
      | none =>
          match r.2.1 with
          | none => (r.1, { status := 404, ok := false, order := none, error := some "Not found" })
          | some o => (r.1, { status := 200, ok := true, order := some o, error := none })

/-- GET /api/orders/[order_no]: a single lookup
`select("*").eq("order_no", order_no).limit(1).maybeSingle()`;
404 when nothing came back. -/
def getOne (db : DB) (ono : String) : Resp :=
  match db.orders.find? (fun o => o.order_no == ono) with
  | some o => { status := 200, ok := true, order := some o, error := none }
  | none => { status := 404, ok := false, order := none, error := some "not found" }

/-- Response of the list endpoint. -/
structure ListResp where
  ok : Bool
  status : Nat
  items : List Order
  total_count : Nat
  pending_count : Nat
deriving DecidableEq, Repr

/-- Insert one order into a list kept in descending `created_at` order. -/
def insertByCreatedDesc (o : Order) : List Order → List Order
  | [] => [o]
  | x :: xs =>
      if x.created_at < o.created_at then o :: x :: xs
      else x :: insertByCreatedDesc o xs

/-- `order("created_at", { ascending: false })`. -/
def sortByCreatedDesc : List Order → List Order
  | [] => []
  | x :: xs => insertByCreatedDesc x (sortByCreatedDesc xs)

/-- GET /api/orders: the limit parameter is capped at 100, the rows are
filtered by the optional status parameter, sorted newest first and paged
with `range(offset, offset + limit - 1)`; `pending_count` comes from a
second query counting rows with `status = "pending"` over the whole
table. -/
def listOrders (db : DB) (statusParam : Option String) (limitRaw offsetRaw : Int) :
    ListResp :=
  let lim := min limitRaw 100
  let filtered :=
    match statusParam with
    | some s => db.orders.filter (fun o => statusToString o.status == s)
    | none => db.orders
  let page := ((sortByCreatedDesc filtered).drop offsetRaw.toNat).take lim.toNat
  { ok := true, status := 200, items := page, total_count := filtered.length,
    pending_count := (db.orders.filter (fun o => o.status == .pending)).length }

/-- Response of POST /api/admin/login: status and whether the
`admin_auth` cookie was set. -/
structure LoginResp where
  status : Nat
  ok : Bool
  cookieSet : Bool
deriving DecidableEq, Repr

/-- POST /api/admin/login: `input = String(body?.password ?? "")`;
`ok = input.length > 0 && input === process.env.ADMIN_PASSWORD` (strict
equality against `undefined` is false when the variable is unset); on
success the cookie is set, otherwise 401 with no cookie. -/
def loginPOST (passwordField : Option String) (adminPassword : Option String) :
    LoginResp :=
  let input := passwordField.getD ""
  let okFlag :=
    decide (0 < input.length) &&
      (match adminPassword with
       | some p => input == p
       | none => false)
  if okFlag then { status := 200, ok := true, cookieSet := true }
  else { status := 401, ok := false, cookieSet := false }

end OrderAdmin

namespace OrderAdmin

/-- C1: while the `order_stop` settings row has `stopped = true`, every
create request — whatever its payload or idempotency header — inserts no
row and is answered 403. -/
theorem create_rejected_while_stopped (db : DB) (env : CreateEnv) (req : CreateReq)
    (h : env.settings.dat = some true) :
    (POSTcreate db env req).1 = db ∧ (POSTcreate db env req).2.status = 403 := by
  have hs : isStopped env.settings = true := by
    unfold isStopped
    rw [h]
  unfold POSTcreate
  rw [hs]
  exact ⟨rfl, rfl⟩

/-- C1 witness: the stop-flag hypothesis holds of `envStopW` and the
conclusion follows at that concrete input. -/
theorem create_rejected_while_stopped_witness :
    envStopW.settings.dat = some true ∧
      (POSTcreate dbW envStopW reqW).1 = dbW ∧
      (POSTcreate dbW envStopW reqW).2.status = 403 :=
  ⟨rfl, create_rejected_while_stopped dbW envStopW reqW rfl⟩

/-- `find?` skips a prefix in which nothing matches. -/
theorem find?_append_of_none {α : Type} (p : α → Bool) (l1 l2 : List α)
    (h : l1.find? p = none) : (l1 ++ l2).find? p = l2.find? p := by
  induction l1 with
  | nil => simp
  | cons a l ih =>
      cases hpa : p a with
      | true => simp [List.find?_cons, hpa] at h
      | false =>
          rw [List.find?_cons, hpa] at h
          rw [List.cons_append, List.find?_cons, hpa]
          exact ih h

/-- After a create request with idempotency key `t` succeeded, the key
lookup on the resulting table finds exactly the order the response
carried. -/
theorem find_after_create (db : DB) (env : CreateEnv) (req : CreateReq) (t : String)
    (h1 : req.idem = some t) (h200 : (POSTcreate db env req).2.status = 200) :
    findByIdem (POSTcreate db env req).1 t = (POSTcreate db env req).2.order := by
  unfold POSTcreate at h200 ⊢
  cases hstop : isStopped env.settings with
  | true => simp [hstop] at h200
  | false =>
      simp only [hstop, Bool.false_eq_true, if_false] at h200 ⊢
      rw [h1] at h200 ⊢
      cases hf : findByIdem db t with
      | some existed => simp [hf]
      | none =>
          simp only [hf] at h200 ⊢
          cases hb : parseBody req.body with
          | none => simp [hb] at h200
          | some input =>
              simp only [hb] at h200 ⊢
              cases hg : generateOrderNo db env.pre env.rnd with
              | none => simp [hg] at h200
              | some no =>
                  simp only [hg]
                  unfold findByIdem
                  rw [find?_append_of_none _ _ _ hf]
                  simp [List.find?_cons]

/-- A replay while not stopped that finds the key returns the stored
order and leaves the table unchanged. -/
theorem replay_hits_existing (db : DB) (env : CreateEnv) (req : CreateReq)
    (t : String) (o : Order)
    (hns : isStopped env.settings = false) (h2 : req.idem = some t)
    (hf : findByIdem db t = some o) :
    POSTcreate db env req =
      (db, { status := 200, ok := true, order := some o, error := none }) := by
  unfold POSTcreate
  simp only [hns, Bool.false_eq_true, if_false, h2, hf]

/-- A 200 answer of the create endpoint always carries an order object. -/
theorem create_200_has_order (db : DB) (env : CreateEnv) (req : CreateReq)
    (h200 : (POSTcreate db env req).2.status = 200) :
    ((POSTcreate db env req).2.order).isSome = true := by
  unfold POSTcreate at h200 ⊢
  cases hstop : isStopped env.settings with
  | true => simp [hstop] at h200
  | false =>
      simp only [hstop, Bool.false_eq_true, if_false] at h200 ⊢
      cases hi : req.idem with
      | some k =>
          simp only [hi] at h200 ⊢
          cases hf : findByIdem db k with
          | some existed => simp [hf]
          | none =>
              simp only [hf] at h200 ⊢
              cases hb : parseBody req.body with
              | none => simp [hb] at h200
              | some input =>
                  simp only [hb] at h200 ⊢
                  cases hg : generateOrderNo db env.pre env.rnd with
                  | none => simp [hg] at h200
                  | some no => simp [hg]
      | none =>
          simp only [hi] at h200 ⊢
          cases hb : parseBody req.body with
          | none => simp [hb] at h200
          | some input =>
              simp only [hb] at h200 ⊢
              cases hg : generateOrderNo db env.pre env.rnd with
              | none => simp [hg] at h200
              | some no => simp [hg]

/-- C2 amended: if a first create request carrying idempotency token `t`
succeeded, then a later create request carrying `t`, with any payload,
handled while the stop flag is false, returns the order created by the
first request and inserts no row. -/
theorem idem_replay_returns_first_order (db db1 : DB) (env1 env2 : CreateEnv)
    (req1 req2 : CreateReq) (t : String) (r1 : Resp)
    (h1 : req1.idem = some t)
    (hp : POSTcreate db env1 req1 = (db1, r1))
    (h200 : r1.status = 200)
    (h2 : req2.idem = some t)
    (hns : isStopped env2.settings = false) :
    POSTcreate db1 env2 req2 =
      (db1, { status := 200, ok := true, order := r1.order, error := none }) := by
  have h200x : (POSTcreate db env1 req1).2.status = 200 := by rw [hp]; exact h200
  have hfind := find_after_create db env1 req1 t h1 h200x
  have hsome := create_200_has_order db env1 req1 h200x
  rw [hp] at hfind hsome
  cases ho : r1.order with
  | none => rw [ho] at hsome; simp at hsome
  | some o =>
      rw [ho] at hfind
      rw [replay_hits_existing db1 env2 req2 t o hns h2 hfind]

/-- C2 data: environment of the first create request (stop flag row absent). -/
def envC2a : CreateEnv :=
  { settings := { dat := none, error := none }, pre := "20250101",
    rnd := fun _ => 1, newId := "row-1", createdAt := 10 }

/-- C2 data: environment of the replay, with the stop flag switched on. -/
def envC2b : CreateEnv :=
  { settings := { dat := some true, error := none }, pre := "20250101",
    rnd := fun _ => 2, newId := "row-2", createdAt := 20 }

/-- C2 data: environment of a replay with the stop flag off. -/
def envC2c : CreateEnv :=
  { settings := { dat := some false, error := none }, pre := "20250101",
    rnd := fun _ => 3, newId := "row-3", createdAt := 30 }

/-- C2 data: create request carrying idempotency token "t". -/
def reqC2 : CreateReq := { idem := some "t", body := some { items := [itemW], note := none } }

/-- C2 data: replay request with the same token and an invalid payload. -/
def reqC2x : CreateReq := { idem := some "t", body := none }

/-- Table after the first C2 create request. -/
def dbC2 : DB := (POSTcreate ⟨[]⟩ envC2a reqC2).1

/-- Response of the first C2 create request. -/
def r1C2 : Resp := (POSTcreate ⟨[]⟩ envC2a reqC2).2

/-- C2 counterexample: the first create request with token "t" succeeds,
but a replay with the same token issued while the stop flag is true is
answered 403 and does not return the order created by the first request. -/
theorem idem_replay_counterexample :
    r1C2.status = 200 ∧
      (POSTcreate dbC2 envC2b reqC2).2.status = 403 ∧
      (POSTcreate dbC2 envC2b reqC2).2.order ≠ r1C2.order := by decide

/-- C2 witness: at concrete inputs (replay carrying token "t" with an
invalid payload, stop flag off) the amended claim applies. -/
theorem idem_replay_returns_first_order_witness :
    reqC2.idem = some "t" ∧ r1C2.status = 200 ∧ reqC2x.idem = some "t" ∧
      isStopped envC2c.settings = false ∧
      POSTcreate dbC2 envC2c reqC2x =
        (dbC2, { status := 200, ok := true, order := r1C2.order, error := none }) :=
  ⟨rfl, by decide, rfl, rfl,
    idem_replay_returns_first_order ⟨[]⟩ dbC2 envC2a envC2c reqC2 reqC2x "t" r1C2
      rfl rfl (by decide) rfl rfl⟩

/-- Filtering is idempotent. -/
theorem filter_self_idem {α : Type} (p : α → Bool) (l : List α) :
    (l.filter p).filter p = l.filter p := by
  induction l with
  | nil => rfl
  | cons a l ih => cases hpa : p a <;> simp [List.filter_cons, hpa, ih]

/-- C3 witness data: a pending row. -/
def rowPending : Order :=
  { orderW with id := "a", order_no := "20250101-1111", status := .pending }

/-- C3 witness data: a completed row. -/
def rowCompleted : Order :=
  { orderW with id := "b", order_no := "20250101-2222", status := .completed }

/-- C3 witness data: a cancelled row. -/
def rowCancelled : Order :=
  { orderW with id := "c", order_no := "20250101-3333", status := .cancelled }

/-- C3/C4 shared witness data: a table with one row of each status. -/
def dbC3 : DB := ⟨[rowPending, rowCompleted, rowCancelled]⟩

/-- C3: an authorized bulk reset keeps exactly the pending rows (each
unchanged, in order) and succeeds; a second authorized invocation deletes
nothing further and also succeeds. -/
theorem reset_removes_nonpending_and_idempotent (db : DB) (c : Option String)
    (h : c = some "1") :
    (resetOrders db c).1.orders = db.orders.filter (fun o => o.status == .pending) ∧
      (resetOrders db c).2.status = 200 ∧
      resetOrders (resetOrders db c).1 c =
        ((resetOrders db c).1,
         { status := 200, ok := true, order := none, error := none }) := by
  subst h
  unfold resetOrders
  simp only [ne_eq, not_true_eq_false, if_false, reduceIte]
  refine ⟨?_, trivial, ?_⟩
  · apply List.filter_congr
    intro o _
    cases o.status <;> rfl
  · simp only [filter_self_idem]

/-- C3 witness: at a concrete three-row table the authorized reset keeps
the pending row, returns 200, and a repeat call is a no-op success. -/
theorem reset_removes_nonpending_and_idempotent_witness :
    (some "1" : Option String) = some "1" ∧
      ((resetOrders dbC3 (some "1")).1.orders =
          dbC3.orders.filter (fun o => o.status == .pending) ∧
        (resetOrders dbC3 (some "1")).2.status = 200 ∧
        resetOrders (resetOrders dbC3 (some "1")).1 (some "1") =
          ((resetOrders dbC3 (some "1")).1,
           { status := 200, ok := true, order := none, error := none })) :=
  ⟨rfl, reset_removes_nonpending_and_idempotent dbC3 (some "1") rfl⟩

/-- C4: at the failing input — a valid status update targeting id
"missing", absent from the three-row table — the handler answers 500 (the
PGRST116 no-rows error from `.single()` surfaces at the `if (error)`
check), not the 404 the spec states; the table is left unchanged. -/
theorem patch_nonexistent_returns_500 :
    (patchStatus dbC3 "missing" (some "completed")).2.status = 500 ∧
      (patchStatus dbC3 "missing" (some "completed")).2.error = some "PGRST116" ∧
      (patchStatus dbC3 "missing" (some "completed")).1 = dbC3 := by
  decide

/-- The update handler's 404 branch is unreachable: a missing row already
surfaced as the store error, so no response of this endpoint carries
status 404. -/
theorem patch_never_404 (db : DB) (id : String) (body : Option String) :
    (patchStatus db id body).2.status ≠ 404 := by
  unfold patchStatus
  cases hp : parseStatusField body with
  | none => simp
  | some st =>
      unfold updateWhereId
      cases hf : db.orders.find? (fun o => o.id == id) with
      | none => simp
      | some o => simp

/-- C5 data: an order whose store id is identifier-shaped (a UUID) and
differs from its order number. -/
def orderC5 : Order :=
  { id := "123e4567-e89b-42d3-a456-426614174000", order_no := "20250101-0001",
    items := [itemW], note := "", status := .pending, source := "web",
    idempotency_key := none, created_at := 5 }

/-- C5 data: a table holding `orderC5`. -/
def dbC5 : DB := ⟨[orderC5]⟩

/-- C5 counterexample: querying the single-order endpoint with the store
id of an existing order answers 404 — there is no fallback lookup by id,
so 404 is returned even though an id lookup would have found the row. -/
theorem getone_no_id_fallback :
    (getOne dbC5 "123e4567-e89b-42d3-a456-426614174000").status = 404 ∧
      dbC5.orders.any
        (fun o => o.id == "123e4567-e89b-42d3-a456-426614174000") = true := by
  decide

/-- C5 amended: the single-order endpoint performs only the `order_no`
lookup and answers 404 exactly when no order carries that order number. -/
theorem getone_404_iff_no_order_no (db : DB) (x : String) :
    (getOne db x).status = 404 ↔
      db.orders.find? (fun o => o.order_no == x) = none := by
  unfold getOne
  cases h : db.orders.find? (fun o => o.order_no == x) <;> simp [h]

/-- When every remaining draw collides, the retry loop exhausts its fuel
and reports failure. -/
theorem genLoop_none_of_all_taken (db : DB) (pre : String) (rnd : Nat → Nat) :
    ∀ fuel start : Nat,
      (∀ j < fuel, orderNoTaken db (candidateNo pre (rnd (start + j))) = true) →
      genLoop db pre rnd fuel start = none := by
  intro fuel
  induction fuel with
  | zero => intro start _; rfl
  | succ n ih =>
      intro start h
      unfold genLoop
      have h0 : orderNoTaken db (candidateNo pre (rnd start)) = true := by
        have := h 0 (Nat.succ_pos n)
        simpa using this
      simp only [h0, if_true]
      apply ih
      intro j hj
      have hx := h (j + 1) (Nat.succ_lt_succ hj)
      have harith : start + (j + 1) = start + 1 + j := by omega
      rw [harith] at hx
      exact hx

/-- C6: a create request that reaches number generation (not stopped, no
idempotent replay, valid payload) whose 50 candidate numbers all collide
with existing rows inserts nothing and is answered 500: the generator
stops after 50 attempts and the thrown error surfaces as a 5xx. -/
theorem create_500_when_candidates_exhausted (db : DB) (env : CreateEnv)
    (req : CreateReq) (inp : RawBody)
    (hstop : isStopped env.settings = false)
    (hidem : ∀ k, req.idem = some k → findByIdem db k = none)
    (hb : parseBody req.body = some inp)
    (hcol : ∀ j < 50, orderNoTaken db (candidateNo env.pre (env.rnd j)) = true) :
    (POSTcreate db env req).1 = db ∧ (POSTcreate db env req).2.status = 500 := by
  have hg : generateOrderNo db env.pre env.rnd = none := by
    unfold generateOrderNo
    apply genLoop_none_of_all_taken
    intro j hj
    have := hcol j hj
    simpa using this
  have hmain : POSTcreate db env req =
      (db, { status := 500, ok := false, order := none,
             error := some "failed to generate unique order_no" }) := by
    unfold POSTcreate
    simp only [hstop, Bool.false_eq_true, if_false]
    cases hi : req.idem with
    | none => simp [hb, hg]
    | some k => simp [hidem k hi, hb, hg]
  rw [hmain]
  exact ⟨rfl, rfl⟩

/-- C6 witness data: a fixed random stream that always draws 7. -/
def envC6 : CreateEnv :=
  { settings := { dat := none, error := none }, pre := "20250101",
    rnd := fun _ => 7, newId := "row-6", createdAt := 60 }

/-- C6 witness data: a table already holding order number 20250101-0007. -/
def dbC6 : DB :=
  ⟨[{ orderW with id := "x", order_no := "20250101-0007", idempotency_key := none }]⟩

/-- C6 witness: with the constant stream every one of the 50 candidates
collides, the request is answered 500 and the table is unchanged. -/
theorem create_500_when_candidates_exhausted_witness :
    isStopped envC6.settings = false ∧
      parseBody reqW.body = some { items := [itemW], note := none } ∧
      (∀ j < 50, orderNoTaken dbC6 (candidateNo envC6.pre (envC6.rnd j)) = true) ∧
      (POSTcreate dbC6 envC6 reqW).1 = dbC6 ∧
      (POSTcreate dbC6 envC6 reqW).2.status = 500 := by
  refine ⟨rfl, by decide, by decide, ?_⟩
  exact create_500_when_candidates_exhausted dbC6 envC6 reqW
    { items := [itemW], note := none } rfl (by intro k hk; cases hk) (by decide)
    (by decide)

/-- C7: the `pending_count` field of the list response is the number of
pending rows in the whole table, whatever status filter, limit and offset
the request carried. -/
theorem list_pending_count_independent (db : DB) (sp : Option String)
    (lim off : Int) :
    (listOrders db sp lim off).pending_count =
      (db.orders.filter (fun x => x.status == .pending)).length := rfl

/-- C8: a reset request without `admin_auth = "1"` deletes nothing and is
answered 401. -/
theorem reset_unauthorized_401 (db : DB) (c : Option String)
    (h : c ≠ some "1") :
    (resetOrders db c).1 = db ∧ (resetOrders db c).2.status = 401 := by
  unfold resetOrders
  rw [if_pos h]
  exact ⟨rfl, rfl⟩

/-- C8 witness: a cookie-less reset against the three-row table. -/
theorem reset_unauthorized_401_witness :
    ((none : Option String) ≠ some "1") ∧
      (resetOrders dbC3 none).1 = dbC3 ∧
      (resetOrders dbC3 none).2.status = 401 :=
  ⟨by decide, reset_unauthorized_401 dbC3 none (by decide)⟩

/-- C9: a store error on the `order_stop` read is indistinguishable from
an absent row: `isStopped` is false, the handler behaves exactly as with
no settings row, and a well-formed create request goes on to insert a row
and answer 200 with no error surfaced. -/
theorem settings_error_treated_as_absent (db : DB) (env : CreateEnv)
    (req : CreateReq) (e : String) (inp : RawBody) (no : String)
    (hs : env.settings = { dat := none, error := some e })
    (hidem : req.idem = none)
    (hb : parseBody req.body = some inp)
    (hg : generateOrderNo db env.pre env.rnd = some no) :
    isStopped env.settings = false ∧
      POSTcreate db env req =
        POSTcreate db { env with settings := { dat := none, error := none } } req ∧
      (POSTcreate db env req).2.status = 200 ∧
      (POSTcreate db env req).1.orders.length = db.orders.length + 1 ∧
      (POSTcreate db env req).2.error = none := by
  obtain ⟨s, pre, rnd, nid, cat⟩ := env
  have hs' : s = { dat := none, error := some e } := hs
  subst hs'
  refine ⟨rfl, ?_, ?_⟩
  · unfold POSTcreate
    rfl
  · unfold POSTcreate
    simp only [isStopped, Bool.false_eq_true, if_false, hidem, hb, hg]
    simp

/-- C9 witness environment: settings read failed with message "boom". -/
def envC9 : CreateEnv :=
  { settings := { dat := none, error := some "boom" }, pre := "20250101",
    rnd := fun _ => 4, newId := "row-9", createdAt := 40 }

/-- C9 witness: against the empty table, a valid create request under a
failed settings read inserts one row and answers 200 with no error. -/
theorem settings_error_treated_as_absent_witness :
    envC9.settings = { dat := none, error := some "boom" } ∧
      reqW.idem = none ∧
      parseBody reqW.body = some { items := [itemW], note := none } ∧
      generateOrderNo ⟨[]⟩ envC9.pre envC9.rnd = some "20250101-0004" ∧
      (isStopped envC9.settings = false ∧
        POSTcreate ⟨[]⟩ envC9 reqW =
          POSTcreate ⟨[]⟩ { envC9 with settings := { dat := none, error := none } } reqW ∧
        (POSTcreate ⟨[]⟩ envC9 reqW).2.status = 200 ∧
        (POSTcreate ⟨[]⟩ envC9 reqW).1.orders.length = (⟨[]⟩ : DB).orders.length + 1 ∧
        (POSTcreate ⟨[]⟩ envC9 reqW).2.error = none) := by
  refine ⟨rfl, rfl, by decide, by decide, ?_⟩
  exact settings_error_treated_as_absent ⟨[]⟩ envC9 reqW "boom"
    { items := [itemW], note := none } "20250101-0004" rfl rfl (by decide) (by decide)

/-- C10: a login request whose password field is absent or empty, or made
while `ADMIN_PASSWORD` is unset, is answered 401 and sets no cookie. -/
theorem login_rejects_empty_password_or_unset_secret
    (pw adminPw : Option String)
    (h : pw = none ∨ pw = some "" ∨ adminPw = none) :
    (loginPOST pw adminPw).status = 401 ∧
      (loginPOST pw adminPw).cookieSet = false := by
  unfold loginPOST
  rcases h with h | h | h
  · subst h; simp
  · subst h; simp
  · subst h; simp

/-- C10 witness: an absent password field against a configured secret,
and an arbitrary password while the secret is unset. -/
theorem login_rejects_empty_password_or_unset_secret_witness :
    ((loginPOST none (some "secret")).status = 401 ∧
        (loginPOST none (some "secret")).cookieSet = false) ∧
      ((loginPOST (some "guess") none).status = 401 ∧
        (loginPOST (some "guess") none).cookieSet = false) :=
  ⟨login_rejects_empty_password_or_unset_secret none (some "secret") (Or.inl rfl),
    login_rejects_empty_password_or_unset_secret (some "guess") none
      (Or.inr (Or.inr rfl))⟩

end OrderAdmin
